import Mathlib

/-
  Verification of the gemini-pdf-batch-analyzer analysis pipeline.

  Shallow embedding of the Python modules `analyzer.py`, `cache.py` and
  `models.py`.  Python strings become `String`, lists become `List`,
  `None`-able values become `Option`, dictionaries become association
  lists, the remote Gemini call becomes an oracle function indexed by
  the attempt number, and the file system becomes a function from paths
  to optional byte contents.
-/

namespace GeminiPdf

/-- Embeds `models.PdfDocument`: a loaded PDF with path, filename,
    extracted text and page count.  `pathlib.Path` is embedded as `String`. -/
structure PdfDocument where
  path : String
  filename : String
  text : String
  page_count : Nat := 0
deriving DecidableEq, Repr

/-- Embeds `models.PdfAnalysisResult`: the result of analysing one PDF. -/
structure PdfAnalysisResult where
  filename : String
  summary : String
  key_entities : String
  action_items : String
  keywords : List String := []
  raw_response : String := ""
  error : Option String := none
deriving DecidableEq, Repr

/-- Embeds the `PdfAnalysisResult.is_successful` property: analysis is
    counted successful exactly when `error is None`. -/
def PdfAnalysisResult.is_successful (r : PdfAnalysisResult) : Bool :=
  r.error.isNone

/-- Embeds `config.AppConfig` (the fields the analyzer reads; paths as strings). -/
structure AppConfig where
  gemini_api_key : String := ""
  input_dir : String := ""
  output_dir : String := ""
  model_name : String := "gemini-2.0-flash"
  max_chars_per_doc : Nat := 15000
deriving DecidableEq, Repr

/-! ## Python string primitives

The embedding implements the Python `str` methods used by the analyzer by
structural recursion on the character list of the string, so that every
definition evaluates inside the kernel. -/

/-- Characters counted as whitespace by Python's `str.strip()`
    (restricted to the ASCII whitespace that occurs in this pipeline). -/
def trim_chars (l : List Char) : List Char :=
  ((l.dropWhile Char.isWhitespace).reverse.dropWhile Char.isWhitespace).reverse

/-- Embeds Python `str.strip()`. -/
def py_trim (s : String) : String := ⟨trim_chars s.data⟩

/-- Embeds Python `str.upper()` (ASCII case mapping). -/
def py_upper (s : String) : String := ⟨s.data.map Char.toUpper⟩

/-- Does the first character list start with the second one? -/
def starts_with_chars : List Char → List Char → Bool
  | _, [] => true
  | [], _ :: _ => false
  | c :: cs, p :: ps => c = p && starts_with_chars cs ps

/-- Embeds Python `str.startswith(p)`. -/
def py_starts_with (s p : String) : Bool := starts_with_chars s.data p.data

/-- Embeds Python slicing `s[n:]` (by code points). -/
def py_drop (s : String) (n : Nat) : String := ⟨s.data.drop n⟩

/-- Embeds Python slicing `s[:n]` (by code points). -/
def py_take (s : String) (n : Nat) : String := ⟨s.data.take n⟩

/-- Embeds Python `len(s)` (code points). -/
def py_len (s : String) : Nat := s.data.length

/-- Splits a character list at every occurrence of the separator character;
    the separator is dropped.  Always returns at least one (possibly empty)
    segment, like Python `str.split(sep)` with a one-character separator. -/
def split_char (sep : Char) : List Char → List (List Char)
  | [] => [[]]
  | c :: rest =>
    if c = sep then [] :: split_char sep rest
    else
      match split_char sep rest with
      | [] => [[c]]
      | l :: ls => (c :: l) :: ls

/-- Embeds Python `s.split("\n")`. -/
def py_split_newline (s : String) : List String :=
  (split_char '\n' s.data).map String.mk

/-- Embeds Python `s.split(",")`. -/
def py_split_comma (s : String) : List String :=
  (split_char ',' s.data).map String.mk

/-- Embeds Python `" ".join(parts)`. -/
def py_join_space (parts : List String) : String :=
  ⟨(List.intersperse [' '] (parts.map String.data)).flatten⟩

/-! ## Response parser (`analyzer._parse_response` / `analyzer._save_section`) -/

/-- The four section tags tracked by the parser's `current_section` variable. -/
inductive SectionTag where
  | summary
  | key_entities
  | action_items
  | keywords
deriving DecidableEq, Repr

/-- The scanning state of the `for line in response_text.split("\n")` loop in
    `_parse_response`: the four accumulators plus `current_section` and
    `current_content`. -/
structure ScanState where
  summary : String := ""
  key_entities : String := ""
  action_items : String := ""
  keywords : List String := []
  current_section : Option SectionTag := none
  current_content : List String := []
deriving DecidableEq, Repr

/-- A snapshot of the local variables of `_parse_response`, as captured by the
    `locals()` call that is passed to `_save_section`. -/
structure LocalsSnapshot where
  summary : String
  key_entities : String
  action_items : String
deriving DecidableEq, Repr

/-- Embeds `" ".join(c for c in content if c)`. -/
def join_content (content : List String) : String :=
  py_join_space (content.filter (fun c => c ≠ ""))

/-- Embeds `analyzer._save_section`.  The Python function assigns into the
    dictionary returned by `locals()`; CPython does not propagate such
    assignments back to the caller's frame, so the updated snapshot returned
    here is discarded by the caller, exactly as the Python write is lost. -/
def save_section (sec : SectionTag) (content : List String)
    (local_vars : LocalsSnapshot) : LocalsSnapshot :=
  let content_text := join_content content
  match sec with
  | SectionTag.summary => { local_vars with summary := content_text }
  | SectionTag.key_entities => { local_vars with key_entities := content_text }
  | SectionTag.action_items => { local_vars with action_items := content_text }
  | SectionTag.keywords => local_vars

/-- One iteration of the line loop of `_parse_response`.  In each header
    branch Python calls `_save_section(current_section, current_content,
    locals())` when a section is open; the call mutates only the `locals()`
    snapshot, which is then dropped, so the branch keeps the accumulators
    unchanged and only resets `current_section` / `current_content`. -/
def process_line (st : ScanState) (line : String) : ScanState :=
  let line_stripped := py_trim line
  let line_upper := py_upper line_stripped
  if py_starts_with line_upper "SUMMARY:" then
    let _discarded := st.current_section.map
      (fun sec => save_section sec st.current_content
        ⟨st.summary, st.key_entities, st.action_items⟩)
    { st with current_section := some SectionTag.summary
              current_content := [py_trim (py_drop line_stripped 8)] }
  else if py_starts_with line_upper "KEY ENTITIES:" then
    let _discarded := st.current_section.map
      (fun sec => save_section sec st.current_content
        ⟨st.summary, st.key_entities, st.action_items⟩)
    { st with current_section := some SectionTag.key_entities
              current_content := [py_trim (py_drop line_stripped 13)] }
  else if py_starts_with line_upper "ACTION ITEMS:" then
    let _discarded := st.current_section.map
      (fun sec => save_section sec st.current_content
        ⟨st.summary, st.key_entities, st.action_items⟩)
    { st with current_section := some SectionTag.action_items
              current_content := [py_trim (py_drop line_stripped 13)] }
  else if py_starts_with line_upper "KEYWORDS:" then
    let _discarded := st.current_section.map
      (fun sec => save_section sec st.current_content
        ⟨st.summary, st.key_entities, st.action_items⟩)
    { st with current_section := some SectionTag.keywords
              current_content := [py_trim (py_drop line_stripped 9)] }
  else
    match st.current_section with
    | some _ => { st with current_content := st.current_content ++ [line_stripped] }
    | none => st

/-- Embeds the "Process final section" block of `_parse_response`
    (`if current_section and current_content: ...`). -/
def finalize_scan (st : ScanState) : ScanState :=
  match st.current_section with
  | none => st
  | some sec =>
    if st.current_content = [] then st
    else
      let content_text := join_content st.current_content
      match sec with
      | SectionTag.summary => { st with summary := content_text }
      | SectionTag.key_entities => { st with key_entities := content_text }
      | SectionTag.action_items => { st with action_items := content_text }
      | SectionTag.keywords =>
          { st with keywords :=
              ((py_split_comma content_text).map py_trim).filter (fun k => k ≠ "") }

/-- The complete scan of a raw response: the line loop followed by the
    final-section processing. -/
def scan_response (response_text : String) : ScanState :=
  finalize_scan ((py_split_newline response_text).foldl process_line {})

/-- Embeds `analyzer._parse_response`: scan, then the
    `if not any([summary, key_entities, action_items])` fallback, then the
    construction of the result. -/
def parse_response (response_text : String) (filename : String) : PdfAnalysisResult :=
  let st := scan_response response_text
  { filename := filename
    summary :=
      if st.summary = "" ∧ st.key_entities = "" ∧ st.action_items = "" then
        (if py_len response_text > 500 then py_take response_text 500 else response_text)
      else st.summary
    key_entities := st.key_entities
    action_items := st.action_items
    keywords := st.keywords
    raw_response := response_text
    error := none }

/-- Does a line match the `SUMMARY:` header test of `_parse_response`? -/
def is_summary_header (line : String) : Bool :=
  py_starts_with (py_upper (py_trim line)) "SUMMARY:"

/-- Does a line match the `KEY ENTITIES:` header test of `_parse_response`? -/
def is_key_entities_header (line : String) : Bool :=
  py_starts_with (py_upper (py_trim line)) "KEY ENTITIES:"

/-- Does a line match the `ACTION ITEMS:` header test of `_parse_response`? -/
def is_action_items_header (line : String) : Bool :=
  py_starts_with (py_upper (py_trim line)) "ACTION ITEMS:"

/-- Does a line match the `KEYWORDS:` header test of `_parse_response`? -/
def is_keywords_header (line : String) : Bool :=
  py_starts_with (py_upper (py_trim line)) "KEYWORDS:"

/-- Does a line match any of the four recognized section headers? -/
def is_any_header (line : String) : Bool :=
  is_summary_header line || is_key_entities_header line ||
    is_action_items_header line || is_keywords_header line

/-! ## Analysis driver (`analyzer.analyze_document`)

The remote Gemini call is embedded as an oracle
`remote : Nat → String → String → Except String String`: for the n-th call of
the run (0-based) with a model name and a prompt it either raises (an
`Except.error` carrying `str(e)`) or returns the response text. -/

/-- Embeds `analyzer.MAX_RETRIES`. -/
def MAX_RETRIES : Nat := 3

/-- Embeds `analyzer.RETRY_DELAY_SECONDS`. -/
def RETRY_DELAY_SECONDS : Nat := 2

/-- The text of `analyzer.ANALYSIS_PROMPT` before the `{document_text}` hole. -/
def ANALYSIS_PROMPT_BEFORE : String :=
  "Analyze the following document and provide a structured analysis.\n\nDOCUMENT TEXT:\n"

/-- The text of `analyzer.ANALYSIS_PROMPT` after the `{document_text}` hole. -/
def ANALYSIS_PROMPT_AFTER : String :=
  "\n\nPlease provide your analysis in the following format:\n\nSUMMARY:\n[A concise 2-3 sentence summary of the document's main content and purpose]\n\nKEY ENTITIES:\n[List the key people, organizations, dates, and important terms mentioned]\n\nACTION ITEMS:\n[List any action items, tasks, or recommendations found in the document. Write \"None identified\" if there are no action items]\n\nKEYWORDS:\n[Comma-separated list of 5-10 relevant keywords that describe this document]\n\nRespond only with the analysis in the exact format above."

/-- Embeds `ANALYSIS_PROMPT.format(document_text=text)`. -/
def analysis_prompt (text : String) : String :=
  ANALYSIS_PROMPT_BEFORE ++ text ++ ANALYSIS_PROMPT_AFTER

/-- One attempt of the retry loop body up to the `if response.text:` test:
    a raised exception propagates, and an empty response text raises
    `ValueError("Empty response from Gemini")`. -/
def attempt_call (remote : Nat → String → String → Except String String)
    (attempt : Nat) (model contents : String) : Except String String :=
  match remote attempt model contents with
  | Except.error e => Except.error e
  | Except.ok t => if t = "" then Except.error "Empty response from Gemini" else Except.ok t

/-- The observable outcome of one `analyze_document` run: the returned result,
    how many remote calls were made, and the list of back-off sleep durations
    (in seconds, in order). -/
structure DriverRun where
  result : PdfAnalysisResult
  calls : Nat
  sleeps : List Nat
deriving DecidableEq, Repr

/-- The "All retries failed" result constructed after the loop of
    `analyze_document`: `error=str(last_error) if last_error else "Unknown error"`. -/
def failure_result (filename : String) (last_error : Option String) : PdfAnalysisResult :=
  { filename := filename
    summary := ""
    key_entities := ""
    action_items := ""
    keywords := []
    raw_response := ""
    error := some (last_error.getD "Unknown error") }

/-- Embeds the `for attempt in range(MAX_RETRIES)` loop of `analyze_document`.
    `fuel` is the number of attempts still available (`MAX_RETRIES - attempt`);
    a sleep of `RETRY_DELAY_SECONDS * (attempt + 1)` happens after a failed
    attempt exactly when `attempt < MAX_RETRIES - 1`, i.e. when further fuel
    remains. -/
def run_attempts (remote : Nat → String → String → Except String String)
    (model prompt filename : String) :
    Nat → Nat → Option String → DriverRun
  | 0, _, last_error => ⟨failure_result filename last_error, 0, []⟩
  | fuel + 1, attempt, _ =>
    match attempt_call remote attempt model prompt with
    | Except.ok t => ⟨parse_response t filename, 1, []⟩
    | Except.error e =>
      if fuel = 0 then ⟨failure_result filename (some e), 1, []⟩
      else
        let rest := run_attempts remote model prompt filename fuel (attempt + 1) (some e)
        ⟨rest.result, rest.calls + 1, RETRY_DELAY_SECONDS * (attempt + 1) :: rest.sleeps⟩

/-- The prompt actually sent for a document: the text truncated to
    `config.max_chars_per_doc` characters, embedded in the template. -/
def effective_prompt (doc : PdfDocument) (config : AppConfig) : String :=
  analysis_prompt
    (if py_len doc.text > config.max_chars_per_doc then py_take doc.text config.max_chars_per_doc
     else doc.text)

/-- Embeds `analyzer.analyze_document`: empty-document short-circuit,
    truncation to `config.max_chars_per_doc`, prompt construction, and the
    retry loop around the remote call. -/
def analyze_document (remote : Nat → String → String → Except String String)
    (doc : PdfDocument) (config : AppConfig) : DriverRun :=
  if py_trim doc.text = "" then
    ⟨{ filename := doc.filename
       summary := "Document contains no extractable text"
       key_entities := ""
       action_items := ""
       keywords := []
       raw_response := ""
       error := some "Empty document" }, 0, []⟩
  else
    run_attempts remote config.model_name (effective_prompt doc config) doc.filename
      MAX_RETRIES 0 none

/-! ## Cache store (`cache.py`)

The file system is embedded as `fs : String → Option (List Nat)`, mapping a
path to the byte content of the file there (`none` when opening or reading the
file raises).  The MD5 digest is embedded as an abstract function
`hashFn : List Nat → Hash` of the full byte content, chunking being
observationally irrelevant. -/

/-- A file system snapshot: path to byte content, `none` when unreadable. -/
def Fs : Type := String → Option (List Nat)

/-- Embeds `cache._compute_file_hash`: hash of the file's bytes, or a raised
    exception (`none`) when the file cannot be read. -/
def compute_file_hash {Hash : Type} (hashFn : List Nat → Hash) (fs : Fs)
    (file_path : String) : Option Hash :=
  (fs file_path).map hashFn

/-- Embeds one value of the cache dictionary: the JSON object stored under a
    filename by `cache.cache_result`. -/
structure CacheEntry (Hash : Type) where
  filename : String
  summary : String
  key_entities : String
  action_items : String
  keywords : List String
  raw_response : String
  error : Option String
  file_hash : Hash
  cached_at : String
deriving DecidableEq, Repr

/-- The in-memory cache dictionary `Dict[str, dict]`, embedded as an
    association list from filename to entry. -/
def Cache (Hash : Type) : Type := List (String × CacheEntry Hash)

/-- Dictionary lookup `cache[k]` (with `k in cache` as `Option.isSome`). -/
def cache_lookup {Hash : Type} : Cache Hash → String → Option (CacheEntry Hash)
  | [], _ => none
  | (k2, e) :: rest, k => if k2 = k then some e else cache_lookup rest k

/-- Dictionary assignment `cache[k] = e` (overwrite or append). -/
def cache_insert {Hash : Type} : Cache Hash → String → CacheEntry Hash → Cache Hash
  | [], k, e => [(k, e)]
  | (k2, e2) :: rest, k, e =>
    if k2 = k then (k, e) :: rest else (k2, e2) :: cache_insert rest k e

/-- Embeds `cache.get_cached_result`: a hit requires an entry for
    `doc.filename` whose stored `file_hash` equals the freshly computed hash
    of the file's current bytes; a hashing exception is caught and yields a
    miss. -/
def get_cached_result {Hash : Type} [DecidableEq Hash] (hashFn : List Nat → Hash)
    (fs : Fs) (cache : Cache Hash) (doc : PdfDocument) : Option PdfAnalysisResult :=
  match cache_lookup cache doc.filename with
  | none => none
  | some cached =>
    match compute_file_hash hashFn fs doc.path with
    | none => none
    | some current_hash =>
      if cached.file_hash ≠ current_hash then none
      else
        some { filename := cached.filename
               summary := cached.summary
               key_entities := cached.key_entities
               action_items := cached.action_items
               keywords := cached.keywords
               raw_response := cached.raw_response
               error := cached.error }

/-- Embeds `cache.get_cached_result` in state-passing form, threading the
    cache dictionary through every step of the function; the Python body
    performs only reads on the dictionary, so each branch hands the mapping
    on as it received it. -/
def get_cached_result_s {Hash : Type} [DecidableEq Hash] (hashFn : List Nat → Hash)
    (fs : Fs) (cache : Cache Hash) (doc : PdfDocument) :
    Option PdfAnalysisResult × Cache Hash :=
  match cache_lookup cache doc.filename with
  | none => (none, cache)
  | some cached =>
    match compute_file_hash hashFn fs doc.path with
    | none => (none, cache)
    | some current_hash =>
      if cached.file_hash ≠ current_hash then (none, cache)
      else
        (some { filename := cached.filename
                summary := cached.summary
                key_entities := cached.key_entities
                action_items := cached.action_items
                keywords := cached.keywords
                raw_response := cached.raw_response
                error := cached.error }, cache)

/-- Embeds `cache.cache_result`: computes the file hash and stores the entry
    under `doc.filename`; a hashing exception is caught and the mapping is
    left unchanged.  `now` stands for `datetime.now().isoformat()`. -/
def cache_result {Hash : Type} (hashFn : List Nat → Hash) (fs : Fs)
    (cache : Cache Hash) (doc : PdfDocument) (result : PdfAnalysisResult)
    (now : String) : Cache Hash :=
  match compute_file_hash hashFn fs doc.path with
  | none => cache
  | some h =>
    cache_insert cache doc.filename
      { filename := result.filename
        summary := result.summary
        key_entities := result.key_entities
        action_items := result.action_items
        keywords := result.keywords
        raw_response := result.raw_response
        error := result.error
        file_hash := h
        cached_at := now }

/-! ## Concrete fixtures used by the theorems below -/

/-- A well-formed response containing all four section headers in order. -/
def c1_input : String :=
  "SUMMARY:\nThe sum.\n\nKEY ENTITIES:\nAlice, Bob\n\nACTION ITEMS:\nDo X\n\nKEYWORDS:\nk1, k2"

/-- The concrete response string of the spec's parsing scenario. -/
def c2_input : String := "SUMMARY:\nA test.\n\nKEYWORDS:\na, b, c"

/-- A document whose extracted text is empty. -/
def doc_empty : PdfDocument :=
  { path := "empty.pdf", filename := "empty.pdf", text := "", page_count := 0 }

/-- A remote oracle that raises `Exception("boom")` on every call. -/
def remote_fail : Nat → String → String → Except String String :=
  fun _ _ _ => Except.error "boom"

/-- A default application configuration. -/
def cfg0 : AppConfig := {}

/-- A document with non-empty extracted text. -/
def doc_w : PdfDocument :=
  { path := "w.pdf", filename := "w.pdf", text := "hello", page_count := 1 }

/-- A fixed analysis result used by the cache witnesses. -/
def res0 : PdfAnalysisResult :=
  { filename := "w.pdf", summary := "s", key_entities := "e", action_items := "a"
    keywords := ["k"], raw_response := "raw", error := none }

/-- A file system where every path holds the byte `[1]`. -/
def fs_one : Fs := fun _ => some [1]

/-- A file system where every path holds the byte `[2]`. -/
def fs_two : Fs := fun _ => some [2]

/-- A file system where no path is readable. -/
def fs_none : Fs := fun _ => none

/-! ## Theorems for the claims -/

/-- Looking a key up right after inserting it yields the inserted entry. -/
theorem cache_lookup_insert {Hash : Type} (c : Cache Hash) (k : String)
    (e : CacheEntry Hash) : cache_lookup (cache_insert c k e) k = some e := by
  induction c with
  | nil => simp [cache_insert, cache_lookup]
  | cons p rest ih =>
    obtain ⟨k2, e2⟩ := p
    by_cases hk : k2 = k
    · simp [cache_insert, hk, cache_lookup]
    · simp [cache_insert, hk, cache_lookup, ih]

/-- C9: `_parse_response` never signals failure through the error channel:
    for every input string and identity the result's `error` is `None`, its
    `raw_response` is the input verbatim, and (since `is_successful` is
    `error is None`) the result counts as successful. -/
theorem c9_parse_never_errors (response_text filename : String) :
    (parse_response response_text filename).error = none ∧
    (parse_response response_text filename).raw_response = response_text ∧
    (parse_response response_text filename).is_successful = true :=
  ⟨rfl, rfl, rfl⟩

/-- C5: the first-500-characters fallback of `_parse_response` fires exactly
    when the scan left `summary`, `key_entities` and `action_items` all
    empty; in that case the result's summary is the first 500 characters of
    the raw response (the whole response when not longer than 500), and
    otherwise the result's summary is the scanned summary. -/
theorem c5_fallback_policy (response_text filename : String) :
    ((scan_response response_text).summary = "" ∧
        (scan_response response_text).key_entities = "" ∧
        (scan_response response_text).action_items = "" →
      (parse_response response_text filename).summary =
        (if py_len response_text > 500 then py_take response_text 500 else response_text)) ∧
    (¬ ((scan_response response_text).summary = "" ∧
        (scan_response response_text).key_entities = "" ∧
        (scan_response response_text).action_items = "") →
      (parse_response response_text filename).summary =
        (scan_response response_text).summary) := by
  constructor
  · intro h
    simp only [parse_response]
    rw [if_pos h]
  · intro h
    simp only [parse_response]
    rw [if_neg h]

/-- C5 witness: a response with no recognized header leaves all three scan
    accumulators empty, and the parsed summary is then the raw response
    itself (shorter than 500 characters). -/
theorem c5_fallback_policy_witness :
    (parse_response "hello world" "w.pdf").summary =
      (if py_len "hello world" > 500 then py_take "hello world" 500 else "hello world") :=
  (c5_fallback_policy "hello world" "w.pdf").1 (by decide)

/-- C1 (code bug): on a response containing all four headers, the flushes
    performed through `_save_section(..., locals())` are lost — CPython does
    not write `locals()` assignments back to the frame — so only the final
    section (here KEYWORDS) survives: `key_entities` and `action_items` come
    out empty and the untouched `summary` is replaced by the raw-response
    fallback, contradicting the claimed recovery of every section. -/
theorem c1_sections_lost_eval :
    (parse_response c1_input "doc.pdf").summary = c1_input ∧
    (parse_response c1_input "doc.pdf").key_entities = "" ∧
    (parse_response c1_input "doc.pdf").action_items = "" ∧
    (parse_response c1_input "doc.pdf").keywords = ["k1", "k2"] ∧
    (parse_response c1_input "doc.pdf").key_entities ≠ "Alice, Bob" := by
  decide

/-- C2 (code bug): the spec's concrete scenario
    `"SUMMARY:\nA test.\n\nKEYWORDS:\na, b, c"` does not parse to
    `summary="A test."`: the SUMMARY flush is lost in `_save_section`, the
    fallback fires, and the summary is the whole raw response. -/
theorem c2_concrete_scenario_eval :
    parse_response c2_input "f.pdf" =
      { filename := "f.pdf"
        summary := c2_input
        key_entities := ""
        action_items := ""
        keywords := ["a", "b", "c"]
        raw_response := c2_input
        error := none } ∧
    (parse_response c2_input "f.pdf").summary ≠ "A test." := by
  decide

/-- C3 counterexample: for the empty document the code returns
    `error="Empty document"`, not an unset error field, so the claim's
    conjunction fails at this concrete input. -/
theorem c3_counterexample :
    ¬ ((analyze_document remote_fail doc_empty cfg0).result.summary =
          "Document contains no extractable text" ∧
       (analyze_document remote_fail doc_empty cfg0).result.error = none) := by
  decide

/-- C3 amended: for every document whose trimmed text is empty,
    `analyze_document` returns, without any remote call, the result with
    summary `"Document contains no extractable text"` and error
    `"Empty document"` (the error field is set, not `None`). -/
theorem c3_empty_document_amended
    (remote : Nat → String → String → Except String String)
    (doc : PdfDocument) (config : AppConfig) (h : py_trim doc.text = "") :
    analyze_document remote doc config =
      ⟨{ filename := doc.filename
         summary := "Document contains no extractable text"
         key_entities := ""
         action_items := ""
         keywords := []
         raw_response := ""
         error := some "Empty document" }, 0, []⟩ := by
  unfold analyze_document
  rw [if_pos h]

/-- A non-header line leaves a state with no open section unchanged. -/
theorem process_line_no_section (st : ScanState) (hsec : st.current_section = none)
    (l : String) (hl : is_any_header l = false) : process_line st l = st := by
  simp only [is_any_header, is_summary_header, is_key_entities_header,
    is_action_items_header, is_keywords_header, Bool.or_eq_false_iff] at hl
  obtain ⟨⟨⟨h1, h2⟩, h3⟩, h4⟩ := hl
  simp [process_line, h1, h2, h3, h4, hsec]

/-- Folding non-header lines from a state with no open section is the
    identity. -/
theorem foldl_no_header (lines : List String)
    (h : ∀ l ∈ lines, is_any_header l = false) (st : ScanState)
    (hsec : st.current_section = none) : lines.foldl process_line st = st := by
  induction lines with
  | nil => rfl
  | cons l ls ih =>
    rw [List.foldl_cons, process_line_no_section st hsec l (h l (by simp))]
    exact ih (fun x hx => h x (by simp [hx]))

/-- A non-header line seen while a section is open only appends its stripped
    text to `current_content`. -/
theorem process_line_in_section (st : ScanState) (sec : SectionTag)
    (hsec : st.current_section = some sec) (l : String)
    (hl : is_any_header l = false) :
    process_line st l = { st with current_content := st.current_content ++ [py_trim l] } := by
  simp only [is_any_header, is_summary_header, is_key_entities_header,
    is_action_items_header, is_keywords_header, Bool.or_eq_false_iff] at hl
  obtain ⟨⟨⟨h1, h2⟩, h3⟩, h4⟩ := hl
  simp [process_line, h1, h2, h3, h4, hsec]

/-- Folding non-header lines while a section is open appends their stripped
    texts to `current_content` and changes nothing else. -/
theorem foldl_in_section (lines : List String)
    (h : ∀ l ∈ lines, is_any_header l = false) :
    ∀ (st : ScanState) (sec : SectionTag), st.current_section = some sec →
      lines.foldl process_line st =
        { st with current_content := st.current_content ++ lines.map py_trim } := by
  induction lines with
  | nil => intro st sec hsec; simp
  | cons l ls ih =>
    intro st sec hsec
    rw [List.foldl_cons, process_line_in_section st sec hsec l (h l (by simp))]
    rw [ih (fun x hx => h x (by simp [hx]))
      { st with current_content := st.current_content ++ [py_trim l] } sec hsec]
    simp

/-- A line matching only the `KEYWORDS:` header opens the keywords section
    with the inline remainder of the line as first content. -/
theorem process_line_keywords_header (st : ScanState) (l : String)
    (h1 : is_summary_header l = false) (h2 : is_key_entities_header l = false)
    (h3 : is_action_items_header l = false) (h4 : is_keywords_header l = true) :
    process_line st l =
      { st with current_section := some SectionTag.keywords
                current_content := [py_trim (py_drop (py_trim l) 9)] } := by
  simp only [is_summary_header] at h1
  simp only [is_key_entities_header] at h2
  simp only [is_action_items_header] at h3
  simp only [is_keywords_header] at h4
  simp [process_line, h1, h2, h3, h4]

/-- C3 witness: the amended statement applied to the concrete empty document. -/
theorem c3_empty_document_witness :
    analyze_document remote_fail doc_empty cfg0 =
      ⟨{ filename := "empty.pdf"
         summary := "Document contains no extractable text"
         key_entities := ""
         action_items := ""
         keywords := []
         raw_response := ""
         error := some "Empty document" }, 0, []⟩ :=
  c3_empty_document_amended remote_fail doc_empty cfg0 (by decide)

/-- C4 counterexample: a response consisting of only a `KEYWORDS:` section
    parses its keywords, yet its summary is not empty — the fallback check
    looks only at summary/key_entities/action_items, which are all empty,
    so the fallback fires. -/
theorem c4_counterexample :
    (parse_response "KEYWORDS:\na, b" "k.pdf").keywords = ["a", "b"] ∧
    ¬ (parse_response "KEYWORDS:\na, b" "k.pdf").summary = "" := by
  decide

/-- C4 amended: for every raw response consisting of only a `KEYWORDS:`
    section and no other recognized header, `_parse_response` parses the
    comma-separated keyword list correctly, `key_entities` and
    `action_items` are empty, and — because the three accumulators the
    fallback check inspects are all empty — the summary is the
    first-500-characters fallback of the raw response, not the empty
    string. -/
theorem c4_keywords_only_amended (response_text filename : String)
    (pre : List String) (kw : String) (post : List String)
    (hsplit : py_split_newline response_text = pre ++ kw :: post)
    (hpre : ∀ l ∈ pre, is_any_header l = false)
    (hpost : ∀ l ∈ post, is_any_header l = false)
    (h1 : is_summary_header kw = false) (h2 : is_key_entities_header kw = false)
    (h3 : is_action_items_header kw = false) (h4 : is_keywords_header kw = true) :
    (parse_response response_text filename).keywords =
      ((py_split_comma (join_content
          (py_trim (py_drop (py_trim kw) 9) :: post.map py_trim))).map py_trim).filter
        (fun k => k ≠ "") ∧
    (parse_response response_text filename).summary =
      (if py_len response_text > 500 then py_take response_text 500 else response_text) ∧
    (parse_response response_text filename).key_entities = "" ∧
    (parse_response response_text filename).action_items = "" := by
  have hscan : scan_response response_text =
      finalize_scan
        { summary := ""
          key_entities := ""
          action_items := ""
          keywords := []
          current_section := some SectionTag.keywords
          current_content := py_trim (py_drop (py_trim kw) 9) :: post.map py_trim } := by
    rw [scan_response, hsplit, List.foldl_append, foldl_no_header pre hpre {} rfl,
        List.foldl_cons, process_line_keywords_header {} kw h1 h2 h3 h4,
        foldl_in_section post hpost _ SectionTag.keywords rfl]
    rfl
  have hfin : scan_response response_text =
      { summary := ""
        key_entities := ""
        action_items := ""
        keywords :=
          ((py_split_comma (join_content
              (py_trim (py_drop (py_trim kw) 9) :: post.map py_trim))).map py_trim).filter
            (fun k => k ≠ "")
        current_section := some SectionTag.keywords
        current_content := py_trim (py_drop (py_trim kw) 9) :: post.map py_trim } := by
    rw [hscan]
    rfl
  refine ⟨?_, ?_, ?_, ?_⟩ <;> simp [parse_response, hfin]

/-- C4 witness: the amended statement at the concrete keywords-only
    response `"KEYWORDS:\na, b"`. -/
theorem c4_keywords_only_witness :
    (parse_response "KEYWORDS:\na, b" "k.pdf").keywords =
      ((py_split_comma (join_content
          (py_trim (py_drop (py_trim "KEYWORDS:") 9) :: ["a, b"].map py_trim))).map py_trim).filter
        (fun k => k ≠ "") ∧
    (parse_response "KEYWORDS:\na, b" "k.pdf").summary =
      (if py_len "KEYWORDS:\na, b" > 500 then py_take "KEYWORDS:\na, b" 500
       else "KEYWORDS:\na, b") ∧
    (parse_response "KEYWORDS:\na, b" "k.pdf").key_entities = "" ∧
    (parse_response "KEYWORDS:\na, b" "k.pdf").action_items = "" :=
  c4_keywords_only_amended "KEYWORDS:\na, b" "k.pdf" [] "KEYWORDS:" ["a, b"]
    rfl (fun l hl => absurd hl (List.not_mem_nil l))
    (fun l hl => by rcases List.mem_singleton.mp hl with rfl; rfl)
    rfl rfl rfl rfl

/-- C6: for a non-empty document, if all three attempts fail the driver makes
    exactly 3 remote calls, sleeps `RETRY_DELAY_SECONDS × attemptNumber`
    after each failed attempt except the last, and returns an all-empty
    result whose error is the last failure's message; if the first (or the
    second) attempt succeeds, it parses the response and returns at once,
    skipping the remaining attempts. -/
theorem c6_retry_bound (remote : Nat → String → String → Except String String)
    (doc : PdfDocument) (config : AppConfig)
    (hne : ¬ py_trim doc.text = "") (e0 e1 e2 t : String) :
    (attempt_call remote 0 config.model_name (effective_prompt doc config) = Except.error e0 →
     attempt_call remote 1 config.model_name (effective_prompt doc config) = Except.error e1 →
     attempt_call remote 2 config.model_name (effective_prompt doc config) = Except.error e2 →
      analyze_document remote doc config =
        ⟨{ filename := doc.filename
           summary := ""
           key_entities := ""
           action_items := ""
           keywords := []
           raw_response := ""
           error := some e2 },
         3, [RETRY_DELAY_SECONDS * 1, RETRY_DELAY_SECONDS * 2]⟩) ∧
    (attempt_call remote 0 config.model_name (effective_prompt doc config) = Except.ok t →
      analyze_document remote doc config = ⟨parse_response t doc.filename, 1, []⟩) ∧
    (attempt_call remote 0 config.model_name (effective_prompt doc config) = Except.error e0 →
     attempt_call remote 1 config.model_name (effective_prompt doc config) = Except.ok t →
      analyze_document remote doc config = ⟨parse_response t doc.filename, 2,
        [RETRY_DELAY_SECONDS * 1]⟩) ∧
    (attempt_call remote 0 config.model_name (effective_prompt doc config) = Except.error e0 →
     attempt_call remote 1 config.model_name (effective_prompt doc config) = Except.error e1 →
     attempt_call remote 2 config.model_name (effective_prompt doc config) = Except.ok t →
      analyze_document remote doc config = ⟨parse_response t doc.filename, 3,
        [RETRY_DELAY_SECONDS * 1, RETRY_DELAY_SECONDS * 2]⟩) := by
  refine ⟨fun h0 h1 h2 => ?_, fun h0 => ?_, fun h0 h1 => ?_, fun h0 h1 h2 => ?_⟩
  · simp [analyze_document, if_neg hne, MAX_RETRIES, run_attempts, h0, h1, h2, failure_result]
  · simp [analyze_document, if_neg hne, MAX_RETRIES, run_attempts, h0]
  · simp [analyze_document, if_neg hne, MAX_RETRIES, run_attempts, h0, h1]
  · simp [analyze_document, if_neg hne, MAX_RETRIES, run_attempts, h0, h1, h2]

/-- C6 witness: a remote call that always raises `boom` on a non-empty
    document makes exactly 3 attempts, sleeps 2 then 4 seconds, and returns
    the all-empty result with error `boom`. -/
theorem c6_retry_bound_witness :
    analyze_document remote_fail doc_w cfg0 =
      ⟨{ filename := "w.pdf"
         summary := ""
         key_entities := ""
         action_items := ""
         keywords := []
         raw_response := ""
         error := some "boom" }, 3, [2, 4]⟩ :=
  (c6_retry_bound remote_fail doc_w cfg0 (by decide) "boom" "boom" "boom" "").1 rfl rfl rfl

/-- C7: a cache lookup hits only when an entry exists for the document's
    filename and its stored hash equals the freshly computed hash of the
    current bytes; an unreadable file yields a miss rather than an exception;
    and after a record, mutating the file's bytes (under an injective digest)
    makes the next lookup miss. -/
theorem c7_cache_hit_validity {Hash : Type} [DecidableEq Hash]
    (hashFn : List Nat → Hash) (fs fs2 : Fs) (cache : Cache Hash)
    (doc : PdfDocument) (result : PdfAnalysisResult) (now : String)
    (b b2 : List Nat) :
    (∀ r, get_cached_result hashFn fs cache doc = some r →
        ∃ e, cache_lookup cache doc.filename = some e ∧
          compute_file_hash hashFn fs doc.path = some e.file_hash) ∧
    (fs doc.path = none → get_cached_result hashFn fs cache doc = none) ∧
    (Function.Injective hashFn → fs doc.path = some b → fs2 doc.path = some b2 →
      b2 ≠ b →
      get_cached_result hashFn fs2 (cache_result hashFn fs cache doc result now) doc
        = none) := by
  refine ⟨fun r h => ?_, fun h => ?_, fun hinj hb hb2 hne => ?_⟩
  · rcases hl : cache_lookup cache doc.filename with _ | e
    · simp [get_cached_result, hl] at h
    · rcases hc : compute_file_hash hashFn fs doc.path with _ | ch
      · simp [get_cached_result, hl, hc] at h
      · by_cases hh : e.file_hash = ch
        · exact ⟨e, rfl, by rw [hh]⟩
        · simp [get_cached_result, hl, hc, hh] at h
  · rw [get_cached_result]
    rcases cache_lookup cache doc.filename with _ | e
    · rfl
    · rw [compute_file_hash, h]
      rfl
  · have hrec : cache_result hashFn fs cache doc result now =
        cache_insert cache doc.filename
          { filename := result.filename
            summary := result.summary
            key_entities := result.key_entities
            action_items := result.action_items
            keywords := result.keywords
            raw_response := result.raw_response
            error := result.error
            file_hash := hashFn b
            cached_at := now } := by
      rw [cache_result, compute_file_hash, hb]
      rfl
    have hmain : hashFn b ≠ hashFn b2 := fun hcontra => hne (hinj hcontra).symm
    simp [hrec, get_cached_result, cache_lookup_insert, compute_file_hash, hb2, hmain]

/-- C7 witness: with the identity digest, recording over bytes `[1]` and
    looking up after the bytes changed to `[2]` misses. -/
theorem c7_cache_hit_validity_witness :
    get_cached_result (id : List Nat → List Nat) fs_two
      (cache_result id fs_one [] doc_w res0 "t0") doc_w = none :=
  (c7_cache_hit_validity id fs_one fs_two [] doc_w res0 "t0" [1] [2]).2.2
    Function.injective_id rfl rfl (by decide)

/-- C8: recording a document/result pair once or twice and then looking it
    up, while the file's bytes are unchanged, returns a result equal to the
    stored one in every field. -/
theorem c8_cache_roundtrip {Hash : Type} [DecidableEq Hash]
    (hashFn : List Nat → Hash) (fs : Fs) (cache : Cache Hash)
    (doc : PdfDocument) (result : PdfAnalysisResult) (now1 now2 : String)
    (b : List Nat) (hb : fs doc.path = some b) :
    get_cached_result hashFn fs (cache_result hashFn fs cache doc result now1) doc
      = some result ∧
    get_cached_result hashFn fs
        (cache_result hashFn fs (cache_result hashFn fs cache doc result now1)
          doc result now2) doc
      = some result := by
  have hc : compute_file_hash hashFn fs doc.path = some (hashFn b) := by
    rw [compute_file_hash, hb]
    rfl
  constructor <;>
    simp [cache_result, hc, get_cached_result, cache_lookup_insert]

/-- C8 witness: the roundtrip at a concrete store, document and result. -/
theorem c8_cache_roundtrip_witness :
    get_cached_result (id : List Nat → List Nat) fs_one
      (cache_result id fs_one [] doc_w res0 "t0") doc_w = some res0 ∧
    get_cached_result (id : List Nat → List Nat) fs_one
      (cache_result id fs_one (cache_result id fs_one [] doc_w res0 "t0")
        doc_w res0 "t1") doc_w = some res0 :=
  c8_cache_roundtrip id fs_one [] doc_w res0 "t0" "t1" [1] rfl

/-- C10: a lookup leaves the cache mapping unchanged whatever its outcome,
    and a record whose hashing fails also leaves the mapping unchanged. -/
theorem c10_lookup_frame {Hash : Type} [DecidableEq Hash]
    (hashFn : List Nat → Hash) (fs : Fs) (cache : Cache Hash)
    (doc : PdfDocument) (result : PdfAnalysisResult) (now : String) :
    (get_cached_result_s hashFn fs cache doc).2 = cache ∧
    (fs doc.path = none → cache_result hashFn fs cache doc result now = cache) := by
  constructor
  · rw [get_cached_result_s]
    rcases cache_lookup cache doc.filename with _ | e
    · rfl
    · rcases compute_file_hash hashFn fs doc.path with _ | ch
      · rfl
      · by_cases hh : e.file_hash ≠ ch <;> simp [hh]
  · intro h
    rw [cache_result, compute_file_hash, h]
    rfl

/-- C10 witness: lookup on an unreadable file hands the mapping back
    unchanged, and so does a record whose hashing fails. -/
theorem c10_lookup_frame_witness :
    (get_cached_result_s (id : List Nat → List Nat) fs_none [] doc_w).2 = [] ∧
    cache_result (id : List Nat → List Nat) fs_none [] doc_w res0 "t" = [] :=
  ⟨(c10_lookup_frame id fs_none [] doc_w res0 "t").1,
   (c10_lookup_frame id fs_none [] doc_w res0 "t").2 rfl⟩

end GeminiPdf
